import Mathlib

/-!
Verification of the CSV-visualizer application core (`src/App.jsx`):
CSV ingestion (`parseCSV`, `handleFileUpload`), per-column substring
filtering (`filteredData`), chart-data projection (`chartData`) and PNG
export (`exportChartPNG`).  JavaScript objects holding string cells are
modelled as association lists; property access `row[col]` yields
`Option String` (`none` models `undefined`).  The external collaborators
(Papa.parse, chart.js, the DOM) are modelled by their observable
inputs/outputs: a parse attempt is an `Except`-wrapped `ParseResult`, a
chart handle carries the outcome of its snapshot call and of the
asynchronous image-load callback.
-/

namespace CsvViz

/-- A table row as produced by Papa.parse with `header: true`: a mapping
from column name to string cell value.  A column absent from the list
models a JavaScript `undefined` access. -/
abbrev Row := List (String × String)

/-- The `filters` state object: entries `(column, needle)` in insertion
order, as enumerated by `Object.entries`. -/
abbrev FilterSet := List (String × String)

/-- JavaScript property access `row[col]`: the first entry with the given
key, `none` for `undefined`. -/
def rowGet (row : Row) (col : String) : Option String :=
  match row.find? (fun cv => cv.1 == col) with
  | none => none
  | some cv => some cv.2

/-- Whether `small` occurs as a prefix of `big` (on character lists). -/
def charsStartsWith : List Char → List Char → Bool
  | [], _ => true
  | _ :: _, [] => false
  | a :: as, b :: bs => a == b && charsStartsWith as bs

/-- Whether `needle` occurs as a contiguous run inside `hay`; JavaScript
`hay.includes(needle)` on strings.  The empty needle always matches. -/
def charsContains (needle : List Char) : List Char → Bool
  | [] => charsStartsWith needle []
  | c :: t => charsStartsWith needle (c :: t) || charsContains needle t

/-- JavaScript `s.toLowerCase()` as a character list: `Char.toLower` on
each character. -/
def lowerChars (s : String) : List Char :=
  s.toList.map Char.toLower

/-- One filter entry applied to a row, the body of the `every` callback in
the source: `row[col]?.toString().toLowerCase().includes(value.toLowerCase())`.
When `row[col]` is `undefined` the optional chain short-circuits to
`undefined`, which is falsy, so the entry fails; no exception is ever
thrown. -/
def entryPasses (row : Row) (col needle : String) : Bool :=
  match rowGet row col with
  | none => false
  | some v => charsContains (lowerChars needle) (lowerChars v)

/-- The row predicate of the source's `data.filter(...)`:
`Object.entries(filters).every(([col, value]) => ...)`. -/
def rowPasses (filters : FilterSet) (row : Row) : Bool :=
  filters.all (fun cv => entryPasses row cv.1 cv.2)

/-- The derived value `filteredData = data.filter((row) => ...)`. -/
def filteredData (data : List Row) (filters : FilterSet) : List Row :=
  data.filter (rowPasses filters)

/-- Characters trimmed by JavaScript string-to-number coercion
(whitespace and line terminators). -/
def jsWhitespace (c : Char) : Bool :=
  c == ' ' || c == '\t' || c == '\n' || c == '\r' || c == '\x0b' || c == '\x0c'

/-- Trim `jsWhitespace` from both ends of a character list. -/
def trimWs (cs : List Char) : List Char :=
  ((cs.dropWhile jsWhitespace).reverse.dropWhile jsWhitespace).reverse

/-- Split a leading run of decimal digits off a character list. -/
def takeDigits (cs : List Char) : List Char × List Char :=
  (cs.takeWhile Char.isDigit, cs.dropWhile Char.isDigit)

/-- Value of a list of decimal digit characters. -/
def digitsToNat (ds : List Char) : Nat :=
  ds.foldl (fun acc c => acc * 10 + (c.toNat - 48)) 0

/-- Parse an unsigned decimal mantissa (`digits`, `digits.digits`,
`.digits` or `digits.`), returning its value and the unconsumed rest. -/
def parseMantissa (cs : List Char) : Option (Rat × List Char) :=
  let p := takeDigits cs
  match p.2 with
  | '.' :: rest2 =>
      let q := takeDigits rest2
      if p.1.isEmpty && q.1.isEmpty then none
      else some ((digitsToNat p.1 : Rat)
        + (digitsToNat q.1 : Rat) / ((10 : Rat) ^ q.1.length), q.2)
  | _ =>
      if p.1.isEmpty then none
      else some ((digitsToNat p.1 : Rat), p.2)

/-- Parse an exponent part `e`/`E`, optional sign, digits. -/
def parseExponent (cs : List Char) : Option (Int × List Char) :=
  match cs with
  | c :: rest =>
      if c == 'e' || c == 'E' then
        match rest with
        | '+' :: r2 =>
            let q := takeDigits r2
            if q.1.isEmpty then none else some ((digitsToNat q.1 : Int), q.2)
        | '-' :: r2 =>
            let q := takeDigits r2
            if q.1.isEmpty then none else some (-(digitsToNat q.1 : Int), q.2)
        | _ =>
            let q := takeDigits rest
            if q.1.isEmpty then none else some ((digitsToNat q.1 : Int), q.2)
      else none
  | [] => none

/-- JavaScript `Number(s)` on a string: trim whitespace, the empty string
is `0`, otherwise a signed decimal literal with optional fraction and
exponent; anything else is `NaN`, modelled as `none`.  The `Infinity`,
hexadecimal, octal and binary forms of the full grammar are not modelled;
no claim exercises them. -/
def jsNumber (s : String) : Option Rat :=
  let cs := trimWs s.toList
  if cs.isEmpty then some 0 else
  let sb : Bool × List Char :=
    match cs with
    | '-' :: r => (true, r)
    | '+' :: r => (false, r)
    | _ => (false, cs)
  match parseMantissa sb.2 with
  | none => none
  | some (m, rest) =>
      let signed : Rat := if sb.1 then -m else m
      match rest with
      | [] => some signed
      | _ =>
          match parseExponent rest with
          | some (e, []) => some (signed * ((10 : Rat) ^ e))
          | _ => none

/-- The source expression `Number(row[yColumn]) || 0`: `Number(undefined)`
is `NaN`, `NaN || 0` is `0`, and a parsed `0` stays `0` through `||`. -/
def numericCoerce (cell : Option String) : Rat :=
  match cell with
  | none => 0
  | some s =>
      match jsNumber s with
      | none => 0
      | some v => v

/-- One entry of the `datasets` array of the chart configuration. -/
structure Dataset where
  label : String
  data : List Rat
  backgroundColor : String
  deriving DecidableEq, Repr

/-- The `chartData` configuration object fed to the chart collaborator.
Labels are raw property accesses and may be `undefined`. -/
structure ChartData where
  labels : List (Option String)
  datasets : List Dataset
  deriving DecidableEq, Repr

/-- The derived value `chartData` of the source, over the already-filtered
rows: `labels = filteredData.map(row => row[xColumn])`, one dataset with
`data = filteredData.map(row => Number(row[yColumn]) || 0)`. -/
def chartData (filteredRows : List Row) (xColumn yColumn : String)
    (darkMode : Bool) : ChartData :=
  { labels := filteredRows.map (fun row => rowGet row xColumn),
    datasets := [
      { label := yColumn,
        data := filteredRows.map (fun row => numericCoerce (rowGet row yColumn)),
        backgroundColor := if darkMode then "#ffffff" else "#000000" } ] }

/-- The component state: the `useState` hooks of `App`. -/
structure AppState where
  csvText : String
  data : List Row
  columns : List String
  xColumn : String
  yColumn : String
  orientation : String
  error : String
  darkMode : Bool
  filters : FilterSet
  deriving DecidableEq, Repr

/-- The observable outcome of one `Papa.parse` call with `header: true`:
the structured error list (messages), the parsed rows and the header
fields (`result.meta.fields`). -/
structure ParseResult where
  errors : List String
  data : List Row
  fields : List String
  deriving DecidableEq, Repr

/-- The `parseCSV` handler.  Its argument is the outcome of the
`Papa.parse(csvText, ...)` call inside the `try` block: `Except.error m`
models a thrown exception (caught, message `m`), `Except.ok r` a returned
result.  A non-empty `r.errors` sets the error message and returns early;
otherwise the error is cleared and `data`/`columns` are replaced. -/
def parseCSV (res : Except String ParseResult) (s : AppState) : AppState :=
  match res with
  | .error m => { s with error := "Error al parsear CSV: " ++ m }
  | .ok r =>
      match r.errors with
      | e :: _ => { s with error := "CSV mal formateado: " ++ e }
      | [] => { s with error := "", data := r.data, columns := r.fields }

/-- The `handleFileUpload` handler: `none` models an empty file selection
(`if (!file) return`), `some r` the `results` passed to the `complete`
callback of `Papa.parse(file, ...)`. -/
def handleFileUpload (file : Option ParseResult) (s : AppState) : AppState :=
  match file with
  | none => s
  | some r =>
      match r.errors with
      | e :: _ => { s with error := "CSV mal formateado: " ++ e }
      | [] => { s with error := "", data := r.data, columns := r.fields }

/-- The `handleFilterChange` handler: `setFilters(prev => ({...prev, [col]: value}))`.
Spreading updates an existing key in place and appends a new key. -/
def handleFilterChange (filters : FilterSet) (col value : String) : FilterSet :=
  if filters.any (fun cv => cv.1 == col) then
    filters.map (fun cv => if cv.1 == col then (col, value) else cv)
  else filters ++ [(col, value)]

instance {ε α : Type} [DecidableEq ε] [DecidableEq α] : DecidableEq (Except ε α)
  | .error a, .error b =>
      if h : a = b then .isTrue (congrArg Except.error h)
      else .isFalse (fun hh => h (Except.error.inj hh))
  | .error _, .ok _ => .isFalse (fun hh => Except.noConfusion hh)
  | .ok _, .error _ => .isFalse (fun hh => Except.noConfusion hh)
  | .ok a, .ok b =>
      if h : a = b then .isTrue (congrArg Except.ok h)
      else .isFalse (fun hh => h (Except.ok.inj hh))

/-- A rendered chart handle (`chartRef.current`) as seen by the export
path: the outcome of the synchronous `toBase64Image()` call (`Except.error`
models a thrown exception), and the outcome of the asynchronous
`image.onload` callback — `none` when the image never fires `onload`,
`some (Except.error e)` when the callback runs and the composite/encode
steps throw `e` (outside any `try`, hence uncaught), `some (Except.ok u)`
when `canvas.toDataURL` succeeds with data URL `u`. -/
structure ChartHandle where
  toBase64Image : Except String String
  onload : Option (Except String String)
  deriving DecidableEq, Repr

/-- The observable outcome of one `exportChartPNG` invocation: the
resulting component state, the filename of a triggered download (the
anchor `click()`), and any exception that escaped uncaught. -/
structure ExportOutcome where
  state : AppState
  download : Option String
  uncaught : Option String
  deriving DecidableEq, Repr

/-- The `exportChartPNG` handler.  A null `chartRef.current` returns
immediately.  The `try`/`catch` encloses only the synchronous part
(`toBase64Image`, image construction); the composite, encode and
download run later inside the `image.onload` callback, so an exception
there escapes the long-finished `try` and never reaches `setError`.  The
download (`a.download = "chart.png"; a.click()`) happens only after
`canvas.toDataURL` has returned. -/
def exportChartPNG (chart : Option ChartHandle) (s : AppState) : ExportOutcome :=
  match chart with
  | none => { state := s, download := none, uncaught := none }
  | some h =>
      match h.toBase64Image with
      | .error e =>
          { state := { s with error := "Error exportando: " ++ e },
            download := none, uncaught := none }
      | .ok _url =>
          match h.onload with
          | none => { state := s, download := none, uncaught := none }
          | some (.error e) =>
              { state := s, download := none, uncaught := some e }
          | some (.ok _final) =>
              { state := s, download := some "chart.png", uncaught := none }

/-- A plain initial state, used for concrete instances. -/
def s0 : AppState :=
  { csvText := "", data := [], columns := [], xColumn := "", yColumn := "",
    orientation := "vertical", error := "", darkMode := false, filters := [] }

/-- A state whose chart selection points at a column named `gone`. -/
def sStale : AppState :=
  { s0 with xColumn := "gone", yColumn := "gone" }

/-- Mapping a function that is constant on a list yields a replicate. -/
theorem map_eq_replicate_of_forall {α β : Type} (f : α → β) (c : β)
    (l : List α) (h : ∀ a ∈ l, f a = c) :
    l.map f = List.replicate l.length c := by
  induction l with
  | nil => rfl
  | cons a t ih =>
    rw [List.map_cons, h a (List.mem_cons_self a t), List.length_cons,
      List.replicate_succ, ih (fun b hb => h b (List.mem_cons_of_mem a hb))]

/-- Filtering a list twice with the same predicate equals filtering once. -/
theorem filter_twice {α : Type} (p : α → Bool) (l : List α) :
    (l.filter p).filter p = l.filter p := by
  induction l with
  | nil => rfl
  | cons a t ih => cases h : p a <;> simp [List.filter_cons, h, ih]

/-- C1 counterexample: a row with a missing cell at a filtered column is
rejected even though the needle is the empty string — the entry evaluates
to `undefined` (falsy), it does not treat the cell as the empty string. -/
theorem C1_counterexample :
    entryPasses [] "a" "" = false ∧
    filteredData [([] : Row)] [("a", "")] = [] := by decide

/-- C1 amended: when the row's cell at a filtered column is missing, the
predicate does not throw, but the entry rejects the row unconditionally —
even when that column's needle is the empty string — so the row is
excluded from the filtered output. -/
theorem C1_missing_cell_always_rejects (row : Row) (col needle : String)
    (filters : FilterSet) (data : List Row)
    (hcell : rowGet row col = none) (hmem : (col, needle) ∈ filters) :
    entryPasses row col needle = false ∧ rowPasses filters row = false ∧
      row ∉ filteredData data filters := by
  have h1 : entryPasses row col needle = false := by
    unfold entryPasses; rw [hcell]
  have h2 : rowPasses filters row = false := by
    unfold rowPasses
    cases hall : filters.all (fun cv => entryPasses row cv.1 cv.2) with
    | false => rfl
    | true =>
      have := List.all_eq_true.mp hall (col, needle) hmem
      rw [h1] at this
      exact absurd this (by simp)
  refine ⟨h1, h2, ?_⟩
  intro hmemf
  have hp : rowPasses filters row = true := (List.mem_filter.mp hmemf).2
  rw [h2] at hp
  exact Bool.false_ne_true hp

/-- C1 witness: the amended statement at the concrete rejected row. -/
theorem C1_missing_cell_always_rejects_witness :
    entryPasses [] "a" "" = false ∧ rowPasses [("a", "")] [] = false ∧
      ([] : Row) ∉ filteredData [([] : Row)] [("a", "")] :=
  C1_missing_cell_always_rejects [] "a" "" [("a", "")] [[]] rfl (by decide)

/-- C2 counterexample: on a parser error report `["boom"]`, ErrorState is
the prefixed message, not exactly the first error's message. -/
theorem C2_counterexample :
    (parseCSV (Except.ok ⟨["boom"], [[("a", "1")]], ["a"]⟩) s0).error
        = "CSV mal formateado: boom" ∧
    (parseCSV (Except.ok ⟨["boom"], [[("a", "1")]], ["a"]⟩) s0).error
        ≠ "boom" := by decide

/-- C2 amended: when the parser reports a non-empty error list, ErrorState
becomes the fixed prefix `CSV mal formateado: ` followed by the first
reported error's message (only the first error is surfaced), and the
whole state apart from ErrorState — in particular `data` and `columns` —
is unchanged, for both the pasted-text and the file-upload paths. -/
theorem C2_first_error_prefixed_no_partial_update
    (r : ParseResult) (s : AppState) (e : String) (rest : List String)
    (hr : r.errors = e :: rest) :
    parseCSV (Except.ok r) s = { s with error := "CSV mal formateado: " ++ e } ∧
    handleFileUpload (some r) s = { s with error := "CSV mal formateado: " ++ e } := by
  simp [parseCSV, handleFileUpload, hr]

/-- C2 witness: the amended statement at a concrete error report. -/
theorem C2_first_error_prefixed_no_partial_update_witness :
    parseCSV (Except.ok ⟨["boom"], [], []⟩) s0
        = { s0 with error := "CSV mal formateado: boom" } ∧
    handleFileUpload (some ⟨["boom"], [], []⟩) s0
        = { s0 with error := "CSV mal formateado: boom" } :=
  C2_first_error_prefixed_no_partial_update ⟨["boom"], [], []⟩ s0 "boom" [] rfl

/-- C3 counterexample: an exception thrown during the composite/encode
callback escapes uncaught — ErrorState keeps its prior value (here the
empty string) and no download happens; the exception does not surface as
an ErrorState message, contrary to the claim. -/
theorem C3_counterexample :
    (exportChartPNG (some ⟨Except.ok "u", some (Except.error "boom")⟩) s0).uncaught
        = some "boom" ∧
    (exportChartPNG (some ⟨Except.ok "u", some (Except.error "boom")⟩) s0).state
        = s0 ∧
    (exportChartPNG (some ⟨Except.ok "u", some (Except.error "boom")⟩) s0).download
        = none := by decide

/-- C3 amended: an exception thrown by the synchronous snapshot step is
caught and surfaces as ErrorState (prefix `Error exportando: `); an
exception thrown inside the asynchronous image-load callback (composite or
encode) is not caught — it escapes and the state is unchanged; the
download, always named `chart.png`, is triggered exactly when the snapshot
and the encode both succeed. -/
theorem C3_snapshot_caught_callback_uncaught (h : ChartHandle) (s : AppState) :
    (∀ e, h.toBase64Image = Except.error e →
      exportChartPNG (some h) s =
        { state := { s with error := "Error exportando: " ++ e },
          download := none, uncaught := none }) ∧
    (∀ u e, h.toBase64Image = Except.ok u → h.onload = some (Except.error e) →
      exportChartPNG (some h) s =
        { state := s, download := none, uncaught := some e }) ∧
    ((exportChartPNG (some h) s).download = some "chart.png" ↔
      (∃ u, h.toBase64Image = Except.ok u) ∧
        (∃ v, h.onload = some (Except.ok v))) ∧
    (∀ n, (exportChartPNG (some h) s).download = some n → n = "chart.png") := by
  obtain ⟨snap, load⟩ := h
  refine ⟨?_, ?_, ?_, ?_⟩
  · intro e he
    cases he
    rfl
  · intro u e hu hl
    cases hu
    cases hl
    rfl
  · cases snap with
    | error e => simp [exportChartPNG]
    | ok u =>
      cases load with
      | none => simp [exportChartPNG]
      | some r =>
        cases r with
        | error e => simp [exportChartPNG]
        | ok v => simp [exportChartPNG]
  · intro n hn
    cases snap with
    | error e => simp [exportChartPNG] at hn
    | ok u =>
      cases load with
      | none => simp [exportChartPNG] at hn
      | some r =>
        cases r with
        | error e => simp [exportChartPNG] at hn
        | ok v =>
          simp [exportChartPNG] at hn
          exact hn.symm

/-- C3 witness: the amended statement at concrete chart handles for the
caught-snapshot-error and uncaught-callback-error paths. -/
theorem C3_snapshot_caught_callback_uncaught_witness :
    exportChartPNG (some ⟨Except.error "x", none⟩) s0 =
      { state := { s0 with error := "Error exportando: x" },
        download := none, uncaught := none } ∧
    exportChartPNG (some ⟨Except.ok "u", some (Except.error "y")⟩) s0 =
      { state := s0, download := none, uncaught := some "y" } :=
  ⟨(C3_snapshot_caught_callback_uncaught ⟨Except.error "x", none⟩ s0).1 "x" rfl,
   (C3_snapshot_caught_callback_uncaught
      ⟨Except.ok "u", some (Except.error "y")⟩ s0).2.1 "u" "y" rfl rfl⟩

/-- C4: the projection yields `labels[i]` equal to row i's cell at the x
column and `values[i]` equal to the numeric coercion of row i's cell at
the y column with fallback 0, producing exactly one label and one dataset
value per filtered row (no grouping or aggregation), and concretely the
cells `"10"`, `"x"`, `"20"` project to the values `10`, `0`, `20`. -/
theorem C4_projection_one_bar_per_row (filteredRows : List Row)
    (x y : String) (dark : Bool) :
    ((chartData filteredRows x y dark).labels
        = filteredRows.map (fun row => rowGet row x) ∧
      (chartData filteredRows x y dark).datasets.map Dataset.data
        = [filteredRows.map (fun row => numericCoerce (rowGet row y))] ∧
      (chartData filteredRows x y dark).labels.length = filteredRows.length ∧
      (chartData filteredRows x y dark).datasets.map (fun d => d.data.length)
        = [filteredRows.length]) ∧
    (chartData [[("y", "10")], [("y", "x")], [("y", "20")]] "x" "y" false).datasets.map
      Dataset.data = [[(10 : Rat), 0, 20]] := by
  refine ⟨⟨rfl, rfl, ?_, ?_⟩, by decide⟩
  · simp [chartData]
  · simp [chartData]

/-- C5 counterexample: a successful PNG export (download triggered) leaves
a previously displayed non-empty ErrorState message in place instead of
clearing it. -/
theorem C5_counterexample :
    (exportChartPNG (some ⟨Except.ok "u", some (Except.ok "v")⟩)
        { s0 with error := "old" }).download = some "chart.png" ∧
    (exportChartPNG (some ⟨Except.ok "u", some (Except.ok "v")⟩)
        { s0 with error := "old" }).state.error = "old" ∧
    ("old" : String) ≠ "" := by decide

/-- C5 amended: a successful CSV parse (pasted text or file upload) clears
ErrorState to empty, but a successful PNG export leaves ErrorState
unchanged — a previously displayed error message survives a successful
export. -/
theorem C5_parse_clears_error_export_preserves :
    (∀ (r : ParseResult) (s : AppState), r.errors = [] →
      (parseCSV (Except.ok r) s).error = "") ∧
    (∀ (r : ParseResult) (s : AppState), r.errors = [] →
      (handleFileUpload (some r) s).error = "") ∧
    (∀ (h : ChartHandle) (s : AppState) (u v : String),
      h.toBase64Image = Except.ok u → h.onload = some (Except.ok v) →
      (exportChartPNG (some h) s).state.error = s.error ∧
      (exportChartPNG (some h) s).download = some "chart.png") := by
  refine ⟨?_, ?_, ?_⟩
  · intro r s hr
    simp only [parseCSV, hr]
  · intro r s hr
    simp only [handleFileUpload, hr]
  · intro h s u v hu hl
    simp [exportChartPNG, hu, hl]

/-- C5 witness: the amended statement at a concrete successful parse,
upload and export. -/
theorem C5_parse_clears_error_export_preserves_witness :
    (parseCSV (Except.ok ⟨[], [[("a", "1")]], ["a"]⟩) s0).error = "" ∧
    (handleFileUpload (some ⟨[], [[("a", "1")]], ["a"]⟩) s0).error = "" ∧
    ((exportChartPNG (some ⟨Except.ok "u", some (Except.ok "v")⟩) s0).state.error
        = s0.error ∧
      (exportChartPNG (some ⟨Except.ok "u", some (Except.ok "v")⟩) s0).download
        = some "chart.png") :=
  ⟨C5_parse_clears_error_export_preserves.1 ⟨[], [[("a", "1")]], ["a"]⟩ s0 rfl,
   C5_parse_clears_error_export_preserves.2.1 ⟨[], [[("a", "1")]], ["a"]⟩ s0 rfl,
   C5_parse_clears_error_export_preserves.2.2
     ⟨Except.ok "u", some (Except.ok "v")⟩ s0 "u" "v" rfl rfl⟩

/-- C6: when the selected x column is absent from every filtered row the
labels are all `undefined`, and when the selected y column is absent the
dataset values are all 0; the projection never fails. -/
theorem C6_absent_columns_project_empty_zero (rows : List Row)
    (x y : String) (dark : Bool) :
    ((∀ row ∈ rows, rowGet row x = none) →
      (chartData rows x y dark).labels = List.replicate rows.length none) ∧
    ((∀ row ∈ rows, rowGet row y = none) →
      (chartData rows x y dark).datasets.map Dataset.data
        = [List.replicate rows.length (0 : Rat)]) := by
  constructor
  · intro hx
    show rows.map (fun row => rowGet row x) = _
    exact map_eq_replicate_of_forall _ _ rows hx
  · intro hy
    show [rows.map (fun row => numericCoerce (rowGet row y))] = _
    rw [map_eq_replicate_of_forall _ (0 : Rat) rows
      (fun row hrow => by rw [hy row hrow]; rfl)]

/-- C6 witness: projecting a one-row table on absent columns `zz`, `ww`. -/
theorem C6_absent_columns_project_empty_zero_witness :
    (chartData [[("a", "1")]] "zz" "ww" false).labels = [none] ∧
    (chartData [[("a", "1")]] "zz" "ww" false).datasets.map Dataset.data
      = [[(0 : Rat)]] :=
  ⟨(C6_absent_columns_project_empty_zero [[("a", "1")]] "zz" "ww" false).1
      (by decide),
   (C6_absent_columns_project_empty_zero [[("a", "1")]] "zz" "ww" false).2
      (by decide)⟩

/-- C7: a successful parse clears ErrorState, replaces `data` and
`columns` wholesale with the parsed result, and leaves the chart selection
`xColumn`/`yColumn` unchanged. -/
theorem C7_parse_success_replaces_table_keeps_selection
    (r : ParseResult) (s : AppState) (hr : r.errors = []) :
    (parseCSV (Except.ok r) s).error = "" ∧
    (parseCSV (Except.ok r) s).data = r.data ∧
    (parseCSV (Except.ok r) s).columns = r.fields ∧
    (parseCSV (Except.ok r) s).xColumn = s.xColumn ∧
    (parseCSV (Except.ok r) s).yColumn = s.yColumn := by
  simp [parseCSV, hr]

/-- C7 witness: a successful parse of columns `["a"]` keeps the stale
selection `gone`/`gone`, which names no column of the new table. -/
theorem C7_parse_success_replaces_table_keeps_selection_witness :
    (parseCSV (Except.ok ⟨[], [[("a", "1")]], ["a"]⟩) sStale).error = "" ∧
    (parseCSV (Except.ok ⟨[], [[("a", "1")]], ["a"]⟩) sStale).data
        = [[("a", "1")]] ∧
    (parseCSV (Except.ok ⟨[], [[("a", "1")]], ["a"]⟩) sStale).columns = ["a"] ∧
    (parseCSV (Except.ok ⟨[], [[("a", "1")]], ["a"]⟩) sStale).xColumn
        = sStale.xColumn ∧
    (parseCSV (Except.ok ⟨[], [[("a", "1")]], ["a"]⟩) sStale).yColumn
        = sStale.yColumn :=
  C7_parse_success_replaces_table_keeps_selection ⟨[], [[("a", "1")]], ["a"]⟩
    sStale rfl

/-- C8: filtering is idempotent — applying the same FilterSet to its own
output yields the same filtered sequence. -/
theorem C8_filter_idempotent (data : List Row) (filters : FilterSet) :
    filteredData (filteredData data filters) filters
      = filteredData data filters :=
  filter_twice (rowPasses filters) data

/-- C9: filtering with an empty FilterSet returns all rows unchanged, and
for any FilterSet the output is an order-preserving subsequence of the
input rows. -/
theorem C9_empty_filterset_identity_and_sublist (data : List Row)
    (filters : FilterSet) :
    filteredData data [] = data ∧
    List.Sublist (filteredData data filters) data := by
  constructor
  · simp [filteredData, rowPasses]
  · exact List.filter_sublist data

/-- C10: exporting with a null chart handle is a silent no-op — the state
is returned untouched, no download is triggered, nothing escapes. -/
theorem C10_export_without_chart_is_noop (s : AppState) :
    exportChartPNG none s = { state := s, download := none, uncaught := none } :=
  rfl

end CsvViz
